import Mathlib

/-!
Shallow embedding of the `shpat` crate (src/lib.rs, src/apply.rs,
src/unwrappable.rs, src/quick_drop.rs).

Modelling conventions:
- A Rust callback `FnOnce(&mut T) -> A` is embedded as a pure function
  `T → T × A`: the first component is the receiver after the callback's
  mutation, the second is the callback's return value.
- A Rust panic (abort) is embedded as `Except.error` carrying the
  diagnostic string; a normal return is `Except.ok`.
- `std::fmt::Debug` (required by `Result::unwrap` for the error payload)
  is embedded as the `DebugFmt` capability below.
- `std::thread::spawn(move || drop(self))` is embedded as a caller-thread
  trace of events: spawning a fresh thread carries the work that the new
  thread will perform, and releasing a value is a `drop` event.
-/

set_option autoImplicit false

universe u v w

namespace Shpat

/-- Embeds the `std::fmt::Debug` bound: the error payload must be
diagnostically formattable for the failure report. -/
class DebugFmt (E : Type u) where
  fmt : E → String

instance : DebugFmt Nat where
  fmt n := toString n

instance : DebugFmt String where
  fmt s := s

instance : DebugFmt Unit where
  fmt _ := "()"

/-- The `Unwrappable` trait of src/unwrappable.rs: returns the underlying
success value, or panics the program if `self` is a failure. The panic is
modelled as `Except.error` with the diagnostic. -/
class Unwrappable (U : Type u) (V : outParam (Type v)) where
  unwrap : U → Except String V

/-- The impl of `Unwrappable` for `Result<T, E> where E: Debug`
(src/unwrappable.rs lines 18-25), delegating to `Result::unwrap`, which
panics with a diagnostic formatting the error payload. -/
instance instUnwrappableExcept {V : Type u} {E : Type v} [DebugFmt E] :
    Unwrappable (Except E V) V where
  unwrap s :=
    match s with
    | Except.ok x => Except.ok x
    | Except.error e =>
        Except.error ("called Result unwrap on an Err value: " ++ DebugFmt.fmt e)

/-- The impl of `Unwrappable` for `Option<T>` (src/unwrappable.rs lines
27-31), delegating to `Option::unwrap`, which panics when absent. -/
instance instUnwrappableOption {V : Type u} : Unwrappable (Option V) V where
  unwrap s :=
    match s with
    | some x => Except.ok x
    | none => Except.error "called Option unwrap on a None value"

/-- `Apply::apply_keep` (src/apply.rs lines 45-48):
`let tmp = f(&mut self); (self, tmp)`. -/
def apply_keep {T : Type u} {A : Type v} (v : T) (f : T → T × A) : T × A :=
  let r := f v
  (r.1, r.2)

/-- `Apply::apply` (src/apply.rs lines 63-66): `f(&mut self); self`. -/
def apply {T : Type u} {A : Type v} (v : T) (f : T → T × A) : T :=
  (f v).1

/-- `Apply::apply_unwrap` (src/apply.rs lines 101-104):
`Unwrappable::unwrap(f(&mut self)); self`. The panic raised by a failed
extraction propagates as `Except.error`. -/
def apply_unwrap {T : Type u} {U : Type v} {V : Type w} [Unwrappable U V]
    (v : T) (f : T → T × U) : Except String T :=
  let r := f v
  match Unwrappable.unwrap r.2 with
  | Except.ok _ => Except.ok r.1
  | Except.error msg => Except.error msg

/-- An observable action of a thread: spawning a fresh thread (carrying the
work the new thread will perform) or releasing a value. -/
inductive Event (T : Type u) where
  | spawn (work : List (Event T))
  | drop (v : T)

/-- Whether an event is the release of some value. -/
def Event.isDrop {T : Type u} : Event T → Bool
  | Event.spawn _ => false
  | Event.drop _ => true

/-- The work moved into the closure `move || drop(self)`: release `v`. -/
def dropWork {T : Type u} (v : T) : List (Event T) :=
  [Event.drop v]

/-- `QuickDrop::quick_drop` (src/quick_drop.rs lines 26-28):
`thread::spawn(move || drop(self));` — the caller-thread trace is a single
spawn whose work releases the value; the caller performs no release. -/
def quick_drop {T : Type u} (v : T) : List (Event T) :=
  [Event.spawn (dropWork v)]

/-- Outcome of a quick drop when the spawning facility may fail: either the
value is detached to a fresh thread, or the call aborts and the value is
released as part of the abort unwind. -/
inductive DropOutcome (T : Type u) where
  | detached (work : List (Event T))
  | abortReleased (v : T)

/-- Modelled from the spec: the failure behaviour of the thread-spawning
facility is host-environment code not under src/ (src/quick_drop.rs only
calls it). Per the spec's failure semantics, when spawning fails the
implementation aborts and the moved value is released during the unwind;
when spawning succeeds the value is detached to the fresh thread. -/
def quick_drop_checked {T : Type u} (spawnOk : Bool) (v : T) : DropOutcome T :=
  if spawnOk then DropOutcome.detached (dropWork v) else DropOutcome.abortReleased v

/-- Whether the outcome releases the value `v` somewhere (on the fresh
thread, or during the abort unwind): in neither case is it leaked. -/
def DropOutcome.releases {T : Type u} (o : DropOutcome T) (v : T) : Prop :=
  match o with
  | DropOutcome.detached work => Event.drop v ∈ work
  | DropOutcome.abortReleased w => w = v

/-- Modelled from the spec: src/prelude.rs is declared (`pub mod prelude;`
in src/lib.rs line 81) but its body is not under src/; per the spec, the
bundle re-exports the `Apply` capability. -/
def PreludeBundle.apply := @Shpat.apply

/-- Modelled from the spec: re-export of `apply_keep` by the bundle. -/
def PreludeBundle.apply_keep := @Shpat.apply_keep

/-- Modelled from the spec: re-export of `apply_unwrap` by the bundle. -/
def PreludeBundle.apply_unwrap := @Shpat.apply_unwrap

/-- Modelled from the spec: re-export of `Unwrappable::unwrap` by the bundle. -/
def PreludeBundle.unwrap := @Shpat.Unwrappable.unwrap

/-- Modelled from the spec: re-export of `quick_drop` by the bundle. -/
def PreludeBundle.quick_drop := @Shpat.quick_drop

/-- Chaining `v.apply(f₁).apply(f₂)…apply(fₙ)` over a list of callbacks. -/
def chain {T : Type u} {A : Type v} (v : T) (fs : List (T → T × A)) : T :=
  fs.foldl (fun s f => apply s f) v

/-- Follows the spec's words for C5 (the reference semantics to compare
`chain` against): running the callbacks in order on `v` in place, each
observing the state left by the previous one. -/
def run_in_place_spec {T : Type u} {A : Type v} (v : T) (fs : List (T → T × A)) : T :=
  fs.foldl (fun s f => (f s).1) v

end Shpat

namespace Shpat

/-- C1: `apply v f` runs `f` exactly once (the invocation counter threaded
through the receiver ends at `n + 1`) with exclusive access to the
receiver, returns the post-callback receiver `eff v`, and the value
`ret` produced by `f` is discarded and does not appear in the result. -/
theorem apply_runs_once_and_discards {T : Type u} {A : Type v}
    (v : T) (eff : T → T) (ret : T → A) :
    apply v (fun t => (eff t, ret t)) = eff v ∧
    ∀ n : Nat, apply (v, n) (fun p => ((eff p.1, p.2 + 1), ret p.1)) = (eff v, n + 1) :=
  ⟨rfl, fun _ => rfl⟩

/-- C2: `apply_keep v f` returns the pair (receiver after the callback's
mutation, callback return value), in that fixed order and never reversed. -/
theorem apply_keep_pair_order {T : Type u} {A : Type v}
    (v : T) (eff : T → T) (ret : T → A) :
    apply_keep v (fun t => (eff t, ret t)) = (eff v, ret v) :=
  rfl

/-- C3: `apply_unwrap v f` aborts exactly when the extraction of the
callback's carrier fails; on success it returns the receiver after the
callback's mutation and discards the payload; and with an invocation
counter threaded through the receiver, the callback runs exactly once and
the extraction is applied exactly once to its single carrier. -/
theorem apply_unwrap_spec {T : Type u} {U : Type v} {V : Type w} [Unwrappable U V]
    (v : T) (f : T → T × U) :
    (apply_unwrap v f).isOk = (Unwrappable.unwrap (f v).2 : Except String V).isOk ∧
    (∀ a : V, Unwrappable.unwrap (f v).2 = Except.ok a →
      apply_unwrap v f = Except.ok (f v).1) ∧
    (∀ msg : String, Unwrappable.unwrap (f v).2 = Except.error msg →
      apply_unwrap v f = Except.error msg) ∧
    (∀ (eff : T → T) (retu : T → U) (n : Nat),
      apply_unwrap (v, n) (fun p => ((eff p.1, p.2 + 1), retu p.1)) =
        (Unwrappable.unwrap (retu v) : Except String V).map (fun _ => (eff v, n + 1))) := by
  refine ⟨?_, ?_, ?_, ?_⟩
  · cases h : (Unwrappable.unwrap (f v).2 : Except String V) <;>
      simp [apply_unwrap, h, Except.isOk, Except.toBool]
  · intro a h
    simp [apply_unwrap, h]
  · intro msg h
    simp [apply_unwrap, h]
  · intro eff retu n
    cases h : (Unwrappable.unwrap (retu v) : Except String V) <;>
      simp [apply_unwrap, h, Except.map]

/-- C3 witness: at the concrete receiver 0 and callback returning the
success carrier `some 5`, extraction succeeds and `apply_unwrap` returns
the mutated receiver. -/
theorem apply_unwrap_spec_witness :
    apply_unwrap (0 : Nat) (fun t => (t + 1, some (5 : Nat))) = Except.ok 1 :=
  (apply_unwrap_spec (0 : Nat) (fun t => (t + 1, some (5 : Nat)))).2.1 5 rfl

/-- C4: `Unwrappable::unwrap` returns the contained success value on a
success-variant carrier and aborts on a failure-variant carrier, for both
required carrier shapes: value-or-error (with a diagnostically formattable
error payload) and value-or-absent. -/
theorem unwrap_both_carrier_shapes {V : Type u} {E : Type v} [DebugFmt E]
    (x : V) (e : E) :
    Unwrappable.unwrap (Except.ok x : Except E V) = Except.ok x ∧
    (Unwrappable.unwrap (Except.error e : Except E V)).isOk = false ∧
    Unwrappable.unwrap (some x) = (Except.ok x : Except String V) ∧
    (Unwrappable.unwrap (none : Option V)).isOk = false :=
  ⟨rfl, rfl, rfl, rfl⟩

/-- C4 witness: on a success-variant value-or-error carrier holding 42,
`unwrap` returns 42; on an error-variant, it aborts. -/
theorem unwrap_both_carrier_shapes_witness :
    Unwrappable.unwrap (Except.ok 42 : Except Unit Nat) = Except.ok 42 ∧
    (Unwrappable.unwrap (Except.error () : Except Unit Nat)).isOk = false :=
  ⟨(unwrap_both_carrier_shapes (42 : Nat) ()).1,
    (unwrap_both_carrier_shapes (42 : Nat) ()).2.1⟩

/-- C5: the chained expression `v.apply(f₁).apply(f₂)…apply(fₙ)` equals
running the callbacks in order on `v` in place, and across two chained
calls the second callback observes exactly the state left by the first. -/
theorem chained_apply_in_order {T : Type u} {A : Type v}
    (v : T) (fs : List (T → T × A)) :
    chain v fs = run_in_place_spec v fs ∧
    ∀ f g : T → T × A, apply (apply v f) g = (g ((f v).1)).1 :=
  ⟨rfl, fun _ _ => rfl⟩

/-- C6: the caller-thread trace of `quick_drop v` is a single spawn of a
fresh thread whose work releases `v`; no event of the caller's thread is a
release, so the caller's thread does not perform the release, and the
release is only pending work of the spawned thread when the call returns. -/
theorem quick_drop_releases_off_thread {T : Type u} (v : T) :
    quick_drop v = [Event.spawn [Event.drop v]] ∧
    ∀ e ∈ quick_drop v, Event.isDrop e = false := by
  refine ⟨rfl, ?_⟩
  intro e he
  simp only [quick_drop, dropWork, List.mem_singleton] at he
  subst he
  rfl

/-- C6 witness: at the concrete value 0, the caller trace is the single
spawn event, which is not a release. -/
theorem quick_drop_releases_off_thread_witness :
    quick_drop (0 : Nat) = [Event.spawn [Event.drop 0]] ∧
    Event.isDrop (Event.spawn [Event.drop (0 : Nat)]) = false :=
  ⟨(quick_drop_releases_off_thread (0 : Nat)).1,
    (quick_drop_releases_off_thread (0 : Nat)).2 (Event.spawn [Event.drop 0])
      (by simp [quick_drop, dropWork])⟩

/-- C7: whether or not the thread-spawning facility succeeds, the value is
released — detached to the fresh thread on success, released during the
abort unwind on failure — so it is never silently leaked. -/
theorem quick_drop_checked_never_leaks {T : Type u} (spawnOk : Bool) (v : T) :
    DropOutcome.releases (quick_drop_checked spawnOk v) v ∧
    quick_drop_checked true v = DropOutcome.detached (dropWork v) ∧
    quick_drop_checked false v = DropOutcome.abortReleased v := by
  refine ⟨?_, rfl, rfl⟩
  cases spawnOk <;> simp [quick_drop_checked, DropOutcome.releases, dropWork]

/-- C8: a single bundle re-exports all three capabilities — `Apply` (all
three operations), `Unwrappable::unwrap`, and `QuickDrop::quick_drop` —
each re-export being exactly the original operation. -/
theorem prelude_bundle_reexports_all_capabilities :
    @PreludeBundle.apply.{u, v} = @Shpat.apply.{u, v} ∧
    @PreludeBundle.apply_keep.{u, v} = @Shpat.apply_keep.{u, v} ∧
    @PreludeBundle.apply_unwrap.{u, v, w} = @Shpat.apply_unwrap.{u, v, w} ∧
    @PreludeBundle.unwrap.{u, v} = @Shpat.Unwrappable.unwrap.{u, v} ∧
    @PreludeBundle.quick_drop.{u} = @Shpat.quick_drop.{u} :=
  ⟨rfl, rfl, rfl, rfl, rfl⟩

/-- C9: the capabilities are available on every type with no opt-in: for
every type `T` and value `v`, all three `Apply` operations and
`quick_drop` are defined and compute per their contracts. (The
thread-transferable and borrow-free bounds of `QuickDrop` are type-system
side conditions; every value of the embedding satisfies them.) -/
theorem blanket_availability :
    ∀ (T : Type u) (v : T) (eff : T → T),
      apply v (fun t => (eff t, ())) = eff v ∧
      apply_keep v (fun t => (eff t, ())) = (eff v, ()) ∧
      apply_unwrap v (fun t => (eff t, some ())) = Except.ok (eff v) ∧
      quick_drop v = [Event.spawn [Event.drop v]] :=
  fun _ _ _ => ⟨rfl, rfl, rfl, rfl⟩

/-- C10: the three `Apply` variants agree: `apply v f` is the first
component of `apply_keep v f`, and whenever the callback's carrier is in
its success variant, `apply_unwrap v g` returns exactly `apply v g`. -/
theorem apply_variants_agree {T : Type u} {A : Type v} {U : Type v} {V : Type w}
    [Unwrappable U V] (v : T) (f : T → T × A) (g : T → T × U) :
    apply v f = (apply_keep v f).1 ∧
    (∀ a : V, Unwrappable.unwrap (g v).2 = Except.ok a →
      apply_unwrap v g = Except.ok (apply v g)) := by
  refine ⟨rfl, ?_⟩
  intro a h
  simp [apply_unwrap, apply, h]

/-- C10 witness: at the concrete receiver 0 with a success carrier, the
variants agree. -/
theorem apply_variants_agree_witness :
    apply (0 : Nat) (fun t => (t + 1, "x")) =
      (apply_keep (0 : Nat) (fun t => (t + 1, "x"))).1 ∧
    apply_unwrap (0 : Nat) (fun t => (t + 1, some (7 : Nat))) =
      Except.ok (apply (0 : Nat) (fun t => (t + 1, some (7 : Nat)))) :=
  ⟨(apply_variants_agree (0 : Nat) (fun t => (t + 1, "x"))
      (fun t => (t + 1, some (7 : Nat)))).1,
    (apply_variants_agree (0 : Nat) (fun t => (t + 1, "x"))
      (fun t => (t + 1, some (7 : Nat)))).2 7 rfl⟩

end Shpat
